import Mathlib

/-!
Shallow embedding of the papermill execution orchestrator
(`src/papermill/execute.py`) together with the obfuscation helper pinned by
`src/papermill/tests/test_utils.py`.

Conventions of the embedding:
* A notebook cell is a record of exactly the fields the orchestrator reads:
  its kind string, source, execution count, the optional `outputs` list
  (`none` models the absence of the `"outputs"` key), the metadata tag list
  (`cell.metadata.get("tags", [])`), the `metadata.papermill.exception`
  flag, and the `metadata.jupyter.source_hidden` flag written by report mode.
* Effects (kernel-name resolution, engine execution, persisting the
  notebook, warnings, raising) are recorded in an explicit trace list, in
  the order the Python code performs them.
* Python `list.insert` clamps an out-of-range index to the end of the list;
  `pyInsert` reproduces that.
-/

set_option autoImplicit false

namespace Papermill

/-- One entry of a cell's `outputs` list; `output_type`, `ename`, `evalue`
and `traceback` are the only fields `raise_for_execution_errors` reads. -/
structure Output where
  output_type : String
  ename : String
  evalue : String
  traceback : List String
  deriving DecidableEq, Repr

/-- A notebook cell, restricted to the fields the orchestrator touches.
`outputs = none` models a cell without the `"outputs"` key. -/
structure Cell where
  cell_type : String
  source : String
  execution_count : Option Int
  outputs : Option (List Output)
  tags : List String
  papermill_exception : Option Bool
  jupyter_source_hidden : Option Bool
  deriving DecidableEq, Repr

/-- Placeholder cell used as the default value for `List.getD` lookups. -/
def dummyCell : Cell :=
  { cell_type := "", source := "", execution_count := none, outputs := none,
    tags := [], papermill_exception := none, jupyter_source_hidden := none }

/-- A notebook: the cell list plus the two path entries the orchestrator
writes into the reserved `metadata.papermill` namespace. -/
structure Notebook where
  cells : List Cell
  papermill_input_path : Option String
  papermill_output_path : Option String
  deriving DecidableEq, Repr

/-- The structured failure value `PapermillExecutionError(...)` is built
from (`src/papermill/execute.py`, constructor calls at lines 216 and 232). -/
structure PapermillExecutionError where
  cell_index : Nat
  exec_count : Option Int
  source : String
  ename : String
  evalue : String
  traceback : List String
  deriving DecidableEq, Repr

/-- `ERROR_MARKER_TAG = "papermill-error-cell-tag"`. -/
def ERROR_MARKER_TAG : String := "papermill-error-cell-tag"

/-- The apostrophe character, used when rendering the marker messages. -/
def squote : String := String.singleton (Char.ofNat 39)

/-- `ERROR_STYLE` literal from `execute.py`. -/
def ERROR_STYLE : String :=
  "style=\"color:red; font-family:Helvetica Neue, Helvetica, Arial, sans-serif; font-size:2em;\""

/-- `ERROR_MESSAGE_TEMPLATE % s`: the banner message with the execution
count interpolated. -/
def ERROR_MESSAGE_TEMPLATE (s : String) : String :=
  "<span " ++ ERROR_STYLE ++ ">An Exception was encountered at " ++ squote ++
    "<a href=\"#papermill-error-cell\">In [" ++ s ++ "]</a>" ++ squote ++ ".</span>"

/-- `ERROR_ANCHOR_MSG` literal from `execute.py`. -/
def ERROR_ANCHOR_MSG : String :=
  "<span id=\"papermill-error-cell\" " ++ ERROR_STYLE ++ ">" ++
    "Execution using papermill encountered an exception here and stopped:" ++ "</span>"

/-- Python `str(...)` on the optional execution count, as used by
`ERROR_MESSAGE_TEMPLATE % str(error.exec_count)`. -/
def execCountStr : Option Int → String
  | none => "None"
  | some n => toString n

/-- Python `list.insert i a`: insert before position `i`, clamping an
out-of-range `i` to the end of the list. -/
def pyInsert {α : Type} (i : Nat) (a : α) : List α → List α
  | [] => [a]
  | x :: xs =>
    match i with
    | 0 => a :: x :: xs
    | j + 1 => x :: pyInsert j a xs

/-- `remove_error_markers`: keep exactly the cells whose tag list does not
contain `ERROR_MARKER_TAG`. -/
def remove_error_markers (nb : Notebook) : Notebook :=
  { nb with cells := nb.cells.filter fun cell => decide (ERROR_MARKER_TAG ∉ cell.tags) }

/-- `prepare_notebook_metadata`: under report mode mark every code cell's
source as hidden, then record the input and output paths in the reserved
metadata namespace. -/
def prepare_notebook_metadata (nb : Notebook) (input_path output_path : String)
    (report_mode : Bool) : Notebook :=
  let cells :=
    if report_mode then
      nb.cells.map fun cell =>
        if cell.cell_type = "code" then { cell with jupyter_source_hidden := some true } else cell
    else nb.cells
  { cells := cells,
    papermill_input_path := some input_path,
    papermill_output_path := some output_path }

/-- Inner loop of `raise_for_execution_errors` over one cell's outputs:
returns the (ename, evalue, traceback) of the first non-benign error-typed
output (the loop `break`s there) and the final value of `has_sys_exit`.
A `SystemExit` whose value is `""` or `"0"` sets `has_sys_exit` and is
skipped with `continue`. -/
def scanOutputs : List Output → Bool → Option (String × String × List String) × Bool
  | [], has_sys_exit => (none, has_sys_exit)
  | o :: rest, has_sys_exit =>
    if o.output_type = "error" then
      if o.ename = "SystemExit" ∧ (o.evalue = "" ∨ o.evalue = "0") then
        scanOutputs rest true
      else
        (some (o.ename, o.evalue, o.traceback), has_sys_exit)
    else
      scanOutputs rest has_sys_exit

/-- Per-cell part of the scan: run `scanOutputs` when the `"outputs"` key
is present; otherwise no error output and `has_sys_exit = false`. -/
def cellScan (cell : Cell) : Option (String × String × List String) × Bool :=
  match cell.outputs with
  | none => (none, false)
  | some outs => scanOutputs outs false

/-- The error built from a cell's first non-benign error output. -/
def mkOutputError (index : Nat) (cell : Cell) (e : String × String × List String) :
    PapermillExecutionError :=
  { cell_index := index, exec_count := cell.execution_count, source := cell.source,
    ename := e.1, evalue := e.2.1, traceback := e.2.2 }

/-- The synthesized error for a cell whose `metadata.papermill.exception`
flag is true. -/
def mkMetadataError (index : Nat) (cell : Cell) : PapermillExecutionError :=
  { cell_index := index, exec_count := cell.execution_count, source := cell.source,
    ename := "CellExecutionError", evalue := "", traceback := [] }

/-- The cell loop of `raise_for_execution_errors`, carrying the running
`index` and the mutable `error` variable.  Finding a non-benign error
output overwrites `error` and only exits the inner loop; the outer loop
keeps going.  Only the metadata-exception branch executes the outer
`break`, and it fires only when `error` is still `None` and the cell set no
`has_sys_exit` flag. -/
def findErrorLoop : Nat → Option PapermillExecutionError → List Cell →
    Option PapermillExecutionError
  | _, error, [] => error
  | index, error, cell :: rest =>
    let scanned := cellScan cell
    let error' :=
      match scanned.1 with
      | some e => some (mkOutputError index cell e)
      | none => error
    if error' = none ∧ scanned.2 = false ∧ cell.papermill_exception = some true then
      some (mkMetadataError index cell)
    else
      findErrorLoop (index + 1) error' rest

/-- The value of the `error` variable when the cell loop of
`raise_for_execution_errors` finishes (or `break`s). -/
def find_execution_error (cells : List Cell) : Option PapermillExecutionError :=
  findErrorLoop 0 none cells

/-- A fresh `nbformat.v4.new_markdown_cell` carrying the error-marker tag. -/
def newMarkerCell (source : String) : Cell :=
  { cell_type := "markdown", source := source, execution_count := none,
    outputs := none, tags := [ERROR_MARKER_TAG], papermill_exception := none,
    jupyter_source_hidden := none }

/-- The marking half of `raise_for_execution_errors`: insert the anchor
cell at the failing cell's index, then the banner cell at index 0.  Both
carry `ERROR_MARKER_TAG`.  (`nbformat.v4.upgrade` only touches the format
version fields, which this embedding does not model.) -/
def markExecutionError (nb : Notebook) (error : PapermillExecutionError) : Notebook :=
  let error_msg_cell := newMarkerCell (ERROR_MESSAGE_TEMPLATE (execCountStr error.exec_count))
  let error_anchor_cell := newMarkerCell ERROR_ANCHOR_MSG
  { nb with cells := pyInsert 0 error_msg_cell (pyInsert error.cell_index error_anchor_cell nb.cells) }

/-- Observable effects of the orchestrator, recorded in execution order. -/
inductive Effect where
  | inferParams : Effect
  | warnUnknownParam : String → Effect
  | parameterize : Effect
  | resolveKernelName : Effect
  | engineExecute : Effect
  | classify : Effect
  | writeNb : Notebook → String → Effect
  | raiseError : PapermillExecutionError → Effect
  deriving DecidableEq, Repr

/-- `raise_for_execution_errors nb output_path`: scan for an error; on
failure write the marked notebook to `output_path` and then raise; on no
failure return with no write and the notebook untouched. -/
def raise_for_execution_errors (nb : Notebook) (output_path : String) :
    List Effect × Except PapermillExecutionError Notebook :=
  match find_execution_error nb.cells with
  | none => ([Effect.classify], Except.ok nb)
  | some error =>
    let marked := markExecutionError nb error
    ([Effect.classify, Effect.writeNb marked output_path, Effect.raiseError error],
      Except.error error)

/-- External collaborators consumed by `execute_notebook` whose code lives
outside `execute.py` (inspection, parameterize, engines): modelled as
opaque-to-the-orchestrator functions supplied by the caller. -/
structure Externals where
  infer_parameter_names : Notebook → List String
  parameterize_nb : Notebook → List (String × String) → Notebook
  engine_execute : Notebook → Notebook

/-- The `if parameters:` block of `execute_notebook` (lines 99-114):
skipped entirely when `parameters` is `None` or an empty mapping (Python
truthiness); otherwise infer the declared parameter names, warn once per
supplied name missing from that set, and parameterize the notebook. -/
def parameterize_stage (ext : Externals) (parameters : Option (List (String × String)))
    (nb : Notebook) : List Effect × Notebook :=
  match parameters with
  | none => ([], nb)
  | some ps =>
    if ps = [] then ([], nb)
    else
      let predefined := ext.infer_parameter_names nb
      let warns := ((ps.map Prod.fst).filter fun p => ¬ predefined.contains p).map
        Effect.warnUnknownParam
      (Effect.inferParams :: (warns ++ [Effect.parameterize]), ext.parameterize_nb nb ps)

/-- The tail of `execute_notebook` after parameterization, metadata
preparation and marker clearing (lines 120-145), starting from the
already-prepared notebook `nb`. -/
def execute_after_prepare (ext : Externals) (nb : Notebook) (output_path : String)
    (prepare_only : Bool) : List Effect × Except PapermillExecutionError Notebook :=
  if prepare_only then
    ([Effect.writeNb nb output_path], Except.ok nb)
  else
    match raise_for_execution_errors (ext.engine_execute nb) output_path with
    | (trace, Except.error e) =>
      (Effect.resolveKernelName :: Effect.engineExecute :: trace, Except.error e)
    | (trace, Except.ok nb') =>
      (Effect.resolveKernelName :: Effect.engineExecute ::
        (trace ++ [Effect.writeNb nb' output_path]), Except.ok nb')

/-- `execute_notebook` (lines 96-145) on an already-loaded notebook:
parameterize when parameters were supplied, prepare metadata, clear stale
error markers, then (unless `prepare_only`) resolve the kernel name, run
the engine and classify for failure; finally persist and return.  The
first component is the trace of observable effects in program order. -/
def execute_notebook (ext : Externals) (nb_loaded : Notebook)
    (parameters : Option (List (String × String))) (input_path output_path : String)
    (prepare_only report_mode : Bool) :
    List Effect × Except PapermillExecutionError Notebook :=
  let staged := parameterize_stage ext parameters nb_loaded
  let prepared :=
    remove_error_markers (prepare_notebook_metadata staged.2 input_path output_path report_mode)
  let tail := execute_after_prepare ext prepared output_path prepare_only
  (staged.1 ++ tail.1, tail.2)

/-- The fixed redaction marker (8 asterisks). -/
def OBFUSCATED_VALUE : String := "********"

/-- Split a character list at underscores into its word components. -/
def splitWords : List Char → List Char → List (List Char)
  | [], acc => [acc.reverse]
  | c :: cs, acc => if c = '_' then acc.reverse :: splitWords cs [] else splitWords cs (c :: acc)

/-- The underscore-delimited, lower-cased word components of a name. -/
def word_components (name : String) : List (List Char) :=
  splitWords (name.toList.map Char.toLower) []

/-- Modelled from the spec: the default sensitive-name test is a
case-insensitive, word-boundary-aware match of `password`, `token` or
`key` against the parameter name (`keyword` must not match `key`); the
defining module `papermill/utils.py` is not included under `src/`, so the
matcher is modelled from the spec's words, with word boundaries taken at
underscores as pinned by `test_obfuscate_parameter`. -/
def matches_sensitive_word (w : String) (name : String) : Bool :=
  (word_components name).contains w.toList

/-- Modelled from the spec: the default pattern set covers `password`,
`token`, `key`.  A pattern is modelled abstractly as a name matcher. -/
def SENSITIVE_PARAMETER_PATTERNS : List (String → Bool) :=
  [matches_sensitive_word "password", matches_sensitive_word "token",
    matches_sensitive_word "key"]

/-- Modelled from the spec: `obfuscate_parameter(name, value, patterns?)`
from `papermill/utils.py`, which is not included under `src/`.  A
caller-supplied pattern list fully replaces the default set; a matching
name redacts the value to the fixed marker.  The empty-value branch
follows the repository's own `test_obfuscate_parameter`, which pins
`obfuscate_parameter(name, "") == ""` for matching names: an empty value
is returned unchanged. -/
def obfuscate_parameter (name value : String)
    (patterns : Option (List (String → Bool))) : String :=
  if ((patterns.getD SENSITIVE_PARAMETER_PATTERNS).any fun p => p name) ∧ value ≠ "" then
    OBFUSCATED_VALUE
  else value

/-! Basic lemmas about `pyInsert`. -/

theorem pyInsert_zero {α : Type} (a : α) (l : List α) : pyInsert 0 a l = a :: l := by
  cases l <;> rfl

theorem length_pyInsert {α : Type} (i : Nat) (a : α) (l : List α) :
    (pyInsert i a l).length = l.length + 1 := by
  induction l generalizing i with
  | nil => simp [pyInsert]
  | cons x xs ih =>
    cases i with
    | zero => rfl
    | succ j => simp [pyInsert, ih]

theorem getD_pyInsert_self {α : Type} (i : Nat) (a d : α) (l : List α) (h : i ≤ l.length) :
    (pyInsert i a l).getD i d = a := by
  induction l generalizing i with
  | nil =>
    have hi : i = 0 := Nat.le_zero.mp h
    subst hi; rfl
  | cons x xs ih =>
    cases i with
    | zero => rfl
    | succ j =>
      have hj : j ≤ xs.length := by simpa using h
      simpa [pyInsert] using ih j hj

theorem getD_pyInsert_succ {α : Type} (i : Nat) (a d : α) (l : List α) (h : i ≤ l.length) :
    (pyInsert i a l).getD (i + 1) d = l.getD i d := by
  induction l generalizing i with
  | nil =>
    have hi : i = 0 := Nat.le_zero.mp h
    subst hi; rfl
  | cons x xs ih =>
    cases i with
    | zero => rfl
    | succ j =>
      have hj : j ≤ xs.length := by simpa using h
      simpa [pyInsert] using ih j hj

theorem filter_pyInsert {α : Type} (p : α → Bool) (i : Nat) (a : α) (l : List α)
    (h : p a = false) : (pyInsert i a l).filter p = l.filter p := by
  induction l generalizing i with
  | nil => simp [pyInsert, h]
  | cons x xs ih =>
    cases i with
    | zero => simp [pyInsert, List.filter_cons, h]
    | succ j =>
      simp only [pyInsert, List.filter_cons]
      cases hx : p x <;> simp [ih j]

theorem mem_tags_newMarkerCell (s : String) : ERROR_MARKER_TAG ∈ (newMarkerCell s).tags := by
  simp [newMarkerCell]

theorem marker_pred_newMarkerCell (s : String) :
    decide (ERROR_MARKER_TAG ∉ (newMarkerCell s).tags) = false := by
  simp [newMarkerCell]

/-- C4: marking an Execution Error at cell index `i` in an `N`-cell
document yields `N + 2` cells, with the banner cell at index 0, the anchor
cell at index `i + 1` (immediately before the failing cell, which moved to
`i + 2`), and both inserted cells carrying the error-marker tag. -/
theorem claim_C4_marker_placement (nb : Notebook) (e : PapermillExecutionError)
    (h : e.cell_index < nb.cells.length) :
    (markExecutionError nb e).cells.length = nb.cells.length + 2 ∧
    (markExecutionError nb e).cells.getD 0 dummyCell =
      newMarkerCell (ERROR_MESSAGE_TEMPLATE (execCountStr e.exec_count)) ∧
    (markExecutionError nb e).cells.getD (e.cell_index + 1) dummyCell =
      newMarkerCell ERROR_ANCHOR_MSG ∧
    ERROR_MARKER_TAG ∈ ((markExecutionError nb e).cells.getD 0 dummyCell).tags ∧
    ERROR_MARKER_TAG ∈ ((markExecutionError nb e).cells.getD (e.cell_index + 1) dummyCell).tags ∧
    (markExecutionError nb e).cells.getD (e.cell_index + 2) dummyCell =
      nb.cells.getD e.cell_index dummyCell := by
  have hle : e.cell_index ≤ nb.cells.length := Nat.le_of_lt h
  have hcells : (markExecutionError nb e).cells =
      newMarkerCell (ERROR_MESSAGE_TEMPLATE (execCountStr e.exec_count)) ::
        pyInsert e.cell_index (newMarkerCell ERROR_ANCHOR_MSG) nb.cells := by
    simp [markExecutionError, pyInsert_zero]
  refine ⟨?_, ?_, ?_, ?_, ?_, ?_⟩
  · rw [hcells]; simp [length_pyInsert]
  · rw [hcells]; rfl
  · rw [hcells]
    simpa using getD_pyInsert_self e.cell_index (newMarkerCell ERROR_ANCHOR_MSG) dummyCell
      nb.cells hle
  · rw [hcells]
    simpa using mem_tags_newMarkerCell (ERROR_MESSAGE_TEMPLATE (execCountStr e.exec_count))
  · rw [hcells, List.getD_cons_succ,
      getD_pyInsert_self e.cell_index (newMarkerCell ERROR_ANCHOR_MSG) dummyCell nb.cells hle]
    exact mem_tags_newMarkerCell ERROR_ANCHOR_MSG
  · rw [hcells]
    simpa using getD_pyInsert_succ e.cell_index (newMarkerCell ERROR_ANCHOR_MSG) dummyCell
      nb.cells hle

/-- Concrete instantiation of `claim_C4_marker_placement`: a three-cell
document marked with an error at cell index 1. -/
theorem claim_C4_witness :
    (markExecutionError ⟨[dummyCell, dummyCell, dummyCell], none, none⟩
        ⟨1, some 2, "x = 1", "E", "v", []⟩).cells.length = 3 + 2 ∧
    (markExecutionError ⟨[dummyCell, dummyCell, dummyCell], none, none⟩
        ⟨1, some 2, "x = 1", "E", "v", []⟩).cells.getD 0 dummyCell =
      newMarkerCell (ERROR_MESSAGE_TEMPLATE (execCountStr (some 2))) ∧
    (markExecutionError ⟨[dummyCell, dummyCell, dummyCell], none, none⟩
        ⟨1, some 2, "x = 1", "E", "v", []⟩).cells.getD (1 + 1) dummyCell =
      newMarkerCell ERROR_ANCHOR_MSG ∧
    ERROR_MARKER_TAG ∈ ((markExecutionError ⟨[dummyCell, dummyCell, dummyCell], none, none⟩
        ⟨1, some 2, "x = 1", "E", "v", []⟩).cells.getD 0 dummyCell).tags ∧
    ERROR_MARKER_TAG ∈ ((markExecutionError ⟨[dummyCell, dummyCell, dummyCell], none, none⟩
        ⟨1, some 2, "x = 1", "E", "v", []⟩).cells.getD (1 + 1) dummyCell).tags ∧
    (markExecutionError ⟨[dummyCell, dummyCell, dummyCell], none, none⟩
        ⟨1, some 2, "x = 1", "E", "v", []⟩).cells.getD (1 + 2) dummyCell =
      [dummyCell, dummyCell, dummyCell].getD 1 dummyCell :=
  claim_C4_marker_placement ⟨[dummyCell, dummyCell, dummyCell], none, none⟩
    ⟨1, some 2, "x = 1", "E", "v", []⟩ (by decide)

/-- C6: clearing removes exactly the cells whose tag list contains the
error-marker tag, clearing is idempotent, and clearing after marking
yields the same cell sequence as clearing alone. -/
theorem claim_C6_clear_mark (nb : Notebook) (e : PapermillExecutionError) :
    (∀ c : Cell, c ∈ (remove_error_markers nb).cells ↔
      c ∈ nb.cells ∧ ERROR_MARKER_TAG ∉ c.tags) ∧
    remove_error_markers (remove_error_markers nb) = remove_error_markers nb ∧
    (remove_error_markers (markExecutionError nb e)).cells = (remove_error_markers nb).cells := by
  refine ⟨?_, ?_, ?_⟩
  · intro c
    simp [remove_error_markers, List.mem_filter]
  · simp only [remove_error_markers]
    congr 1
    rw [List.filter_filter]
    simp
  · simp only [remove_error_markers, markExecutionError, pyInsert_zero]
    rw [List.filter_cons_of_neg, filter_pyInsert]
    · exact marker_pred_newMarkerCell _
    · simp [newMarkerCell]

/-! Lemmas about the cell loop of `raise_for_execution_errors`. -/

theorem findErrorLoop_none (i : Nat) (l : List Cell)
    (h : ∀ c ∈ l, (cellScan c).1 = none ∧
      ((cellScan c).2 = false → c.papermill_exception ≠ some true)) :
    findErrorLoop i none l = none := by
  induction l generalizing i with
  | nil => rfl
  | cons c rest ih =>
    obtain ⟨h1, h2⟩ := h c (List.mem_cons_self c rest)
    rw [findErrorLoop]
    simp only [h1]
    rw [if_neg]
    · exact ih (i + 1) fun c' hc' => h c' (List.mem_cons_of_mem c hc')
    · rintro ⟨-, hse, hflag⟩
      exact h2 hse hflag

theorem findErrorLoop_keep_some (i : Nat) (e : PapermillExecutionError) (l : List Cell)
    (h : ∀ c ∈ l, (cellScan c).1 = none) :
    findErrorLoop i (some e) l = some e := by
  induction l generalizing i with
  | nil => rfl
  | cons c rest ih =>
    rw [findErrorLoop]
    simp only [h c (List.mem_cons_self c rest)]
    rw [if_neg]
    · exact ih (i + 1) fun c' hc' => h c' (List.mem_cons_of_mem c hc')
    · rintro ⟨hnone, -, -⟩
      exact Option.some_ne_none e hnone

theorem findErrorLoop_last_output_error (c : Cell) (l₂ : List Cell)
    (t : String × String × List String)
    (h2 : (cellScan c).1 = some t)
    (h3 : ∀ c'' ∈ l₂, (cellScan c'').1 = none) :
    ∀ (l₁ : List Cell) (i : Nat) (err : Option PapermillExecutionError),
      (∀ c' ∈ l₁, c'.papermill_exception ≠ some true) →
      findErrorLoop i err (l₁ ++ c :: l₂) = some (mkOutputError (i + l₁.length) c t) := by
  intro l₁
  induction l₁ with
  | nil =>
    intro i err _
    rw [List.nil_append]
    simp only [findErrorLoop, h2]
    rw [if_neg]
    · simpa using findErrorLoop_keep_some (i + 1) (mkOutputError i c t) l₂ h3
    · rintro ⟨hnone, -, -⟩
      exact Option.some_ne_none _ hnone
  | cons c' rest ih =>
    intro i err h1
    rw [List.cons_append]
    simp only [findErrorLoop]
    rw [if_neg]
    · rw [ih (i + 1) _ fun x hx => h1 x (List.mem_cons_of_mem c' hx)]
      have harith : i + 1 + rest.length = i + (c' :: rest).length := by
        simp [List.length_cons]; omega
      rw [harith]
    · rintro ⟨-, -, hflag⟩
      exact h1 c' (List.mem_cons_self c' rest) hflag

theorem findErrorLoop_metadata_stop (c : Cell) (l₂ : List Cell)
    (h2 : (cellScan c).1 = none) (h3 : (cellScan c).2 = false)
    (h4 : c.papermill_exception = some true) :
    ∀ (l₁ : List Cell) (i : Nat),
      (∀ c' ∈ l₁, (cellScan c').1 = none ∧ c'.papermill_exception ≠ some true) →
      findErrorLoop i none (l₁ ++ c :: l₂) = some (mkMetadataError (i + l₁.length) c) := by
  intro l₁
  induction l₁ with
  | nil =>
    intro i _
    rw [List.nil_append]
    simp only [findErrorLoop, h2]
    rw [if_pos ⟨trivial, h3, h4⟩]
    simp
  | cons c' rest ih =>
    intro i h1
    obtain ⟨hs, hf⟩ := h1 c' (List.mem_cons_self c' rest)
    rw [List.cons_append]
    simp only [findErrorLoop, hs]
    rw [if_neg]
    · rw [ih (i + 1) fun x hx => h1 x (List.mem_cons_of_mem c' hx)]
      have harith : i + 1 + rest.length = i + (c' :: rest).length := by
        simp [List.length_cons]; omega
      rw [harith]
    · rintro ⟨-, -, hflag⟩
      exact hf hflag

/-- `cellScan` and the two error constructors never read `cell_type`. -/
theorem findErrorLoop_retype (tkind : String) (l : List Cell) (i : Nat)
    (err : Option PapermillExecutionError) :
    findErrorLoop i err (l.map fun c => { c with cell_type := tkind }) =
      findErrorLoop i err l := by
  induction l generalizing i err with
  | nil => rfl
  | cons c rest ih =>
    rw [List.map_cons, findErrorLoop, findErrorLoop]
    have hscan : cellScan { c with cell_type := tkind } = cellScan c := rfl
    rw [hscan]
    have hmk : ∀ e, mkOutputError i { c with cell_type := tkind } e = mkOutputError i c e :=
      fun e => rfl
    have hmeta : mkMetadataError i { c with cell_type := tkind } = mkMetadataError i c := rfl
    cases hsc : (cellScan c).1 with
    | none => simp only [hmeta, ih]
    | some e => simp only [hmk, hmeta, ih]

/-! Concrete example documents used to instantiate the theorems. -/

/-- An unremarkable executed code cell with no outputs. -/
def plainCodeCell : Cell :=
  { cell_type := "code", source := "x = 1", execution_count := some 1,
    outputs := some [], tags := [], papermill_exception := none,
    jupyter_source_hidden := none }

/-- A `NameError` output. -/
def nameErrorOutput : Output :=
  { output_type := "error", ename := "NameError", evalue := "boom2", traceback := ["tb2"] }

/-- A `ZeroDivisionError` output. -/
def zeroDivErrorOutput : Output :=
  { output_type := "error", ename := "ZeroDivisionError", evalue := "boom5",
    traceback := ["tb5"] }

/-- A code cell whose outputs hold one non-benign error. -/
def errorCell2 : Cell :=
  { cell_type := "code", source := "cell two", execution_count := some 3,
    outputs := some [nameErrorOutput], tags := [], papermill_exception := none,
    jupyter_source_hidden := none }

/-- A second code cell whose outputs hold one non-benign error. -/
def errorCell5 : Cell :=
  { cell_type := "code", source := "cell five", execution_count := some 6,
    outputs := some [zeroDivErrorOutput], tags := [], papermill_exception := none,
    jupyter_source_hidden := none }

/-- A six-cell document with error outputs in cells 2 and 5. -/
def docErrors25 : List Cell :=
  [plainCodeCell, plainCodeCell, errorCell2, plainCodeCell, plainCodeCell, errorCell5]

/-- The benign clean-exit output: `SystemExit` with empty value. -/
def benignExitOutput : Output :=
  { output_type := "error", ename := "SystemExit", evalue := "", traceback := [] }

/-- A genuine error output. -/
def realErrorOutput : Output :=
  { output_type := "error", ename := "ValueError", evalue := "bad", traceback := ["tbv"] }

/-- A code cell whose only error-typed output is the benign exit signal. -/
def benignOnlyCell : Cell :=
  { cell_type := "code", source := "sys.exit()", execution_count := some 2,
    outputs := some [benignExitOutput], tags := [], papermill_exception := none,
    jupyter_source_hidden := none }

/-- Like `benignOnlyCell` but with the metadata exception flag set. -/
def benignFlaggedCell : Cell :=
  { benignOnlyCell with papermill_exception := some true }

/-- A code cell with a benign exit signal followed by a real error output. -/
def mixedOutputsCell : Cell :=
  { cell_type := "code", source := "mix", execution_count := some 4,
    outputs := some [benignExitOutput, realErrorOutput], tags := [],
    papermill_exception := none, jupyter_source_hidden := none }

/-- A markdown cell (no `outputs` key) whose metadata exception flag is set. -/
def flaggedMarkdownCell : Cell :=
  { cell_type := "markdown", source := "md", execution_count := none,
    outputs := none, tags := [], papermill_exception := some true,
    jupyter_source_hidden := none }

/-- C1 (counterexample): in the six-cell document with error outputs in
cells 2 and 5 the classifier reports the error of cell 5, not cell 2 —
the scan does inspect later cells and the later failure overwrites the
earlier one. -/
theorem claim_C1_counterexample :
    (find_execution_error docErrors25).map PapermillExecutionError.cell_index = some 5 ∧
    (find_execution_error docErrors25).map PapermillExecutionError.cell_index ≠ some 2 := by
  decide

/-- C1 (amended): finding an error output only exits the inner output
loop, so later cells are still inspected and overwrite the pending error.
When cell `c` holds a non-benign error output, no later cell does, and no
earlier cell can take the metadata-exception stop, the classifier reports
the error built from `c` (its first non-benign output) at index
`l₁.length`, whatever error outputs earlier cells contain. -/
theorem claim_C1_last_failure_wins (l₁ : List Cell) (c : Cell) (l₂ : List Cell)
    (t : String × String × List String)
    (h1 : ∀ c' ∈ l₁, c'.papermill_exception ≠ some true)
    (h2 : (cellScan c).1 = some t)
    (h3 : ∀ c'' ∈ l₂, (cellScan c'').1 = none) :
    find_execution_error (l₁ ++ c :: l₂) = some (mkOutputError l₁.length c t) := by
  simpa using findErrorLoop_last_output_error c l₂ t h2 h3 l₁ 0 none h1

/-- Instantiation of `claim_C1_last_failure_wins` on the document with
error outputs in cells 2 and 5. -/
theorem claim_C1_witness :
    find_execution_error
        ([plainCodeCell, plainCodeCell, errorCell2, plainCodeCell, plainCodeCell] ++
          errorCell5 :: []) =
      some (mkOutputError 5 errorCell5 ("ZeroDivisionError", "boom5", ["tb5"])) :=
  claim_C1_last_failure_wins
    [plainCodeCell, plainCodeCell, errorCell2, plainCodeCell, plainCodeCell]
    errorCell5 [] ("ZeroDivisionError", "boom5", ["tb5"])
    (by decide) (by decide) (by decide)

/-- C2: when the classifier finds an Execution Error, the effect trace is
exactly classify, then persist the marked document, then raise — the
marked document is written before the error is raised; when no failure is
found, nothing is written and the document is returned unchanged. -/
theorem claim_C2_persist_before_raise (nb : Notebook) (output_path : String) :
    (∀ e, find_execution_error nb.cells = some e →
      raise_for_execution_errors nb output_path =
        ([Effect.classify, Effect.writeNb (markExecutionError nb e) output_path,
          Effect.raiseError e], Except.error e)) ∧
    (find_execution_error nb.cells = none →
      raise_for_execution_errors nb output_path = ([Effect.classify], Except.ok nb)) := by
  constructor
  · intro e h
    simp [raise_for_execution_errors, h]
  · intro h
    simp [raise_for_execution_errors, h]

/-- Instantiation of `claim_C2_persist_before_raise` on a failing and on a
clean document. -/
theorem claim_C2_witness :
    raise_for_execution_errors ⟨docErrors25, none, none⟩ "out.ipynb" =
      ([Effect.classify,
        Effect.writeNb
          (markExecutionError ⟨docErrors25, none, none⟩
            (mkOutputError 5 errorCell5 ("ZeroDivisionError", "boom5", ["tb5"]))) "out.ipynb",
        Effect.raiseError (mkOutputError 5 errorCell5 ("ZeroDivisionError", "boom5", ["tb5"]))],
        Except.error (mkOutputError 5 errorCell5 ("ZeroDivisionError", "boom5", ["tb5"]))) ∧
    raise_for_execution_errors ⟨[plainCodeCell], none, none⟩ "out.ipynb" =
      ([Effect.classify], Except.ok ⟨[plainCodeCell], none, none⟩) :=
  ⟨(claim_C2_persist_before_raise ⟨docErrors25, none, none⟩ "out.ipynb").1
      (mkOutputError 5 errorCell5 ("ZeroDivisionError", "boom5", ["tb5"])) (by decide),
    (claim_C2_persist_before_raise ⟨[plainCodeCell], none, none⟩ "out.ipynb").2 (by decide)⟩

/-- C3: a benign clean-exit output (`SystemExit` with value `""` or `"0"`)
is not a failure: (1) a document in which every error-typed output is
benign and in which no cell without a benign signal carries the metadata
exception flag classifies as no-failure — in particular a cell with a
benign signal suppresses its own metadata-flag fallback; (2) the signal
suppresses only itself: the output scan continues with the remaining
outputs of the same cell and records `has_sys_exit`; (3) a later cell with
a real error output still yields that failure; (4) a real error output
after a benign signal in the same cell still yields that failure. -/
theorem claim_C3_benign_exit :
    (∀ cells : List Cell,
      (∀ c ∈ cells, (cellScan c).1 = none ∧
        ((cellScan c).2 = false → c.papermill_exception ≠ some true)) →
      find_execution_error cells = none) ∧
    (∀ (b : Output) (rest : List Output) (hse : Bool),
      b.output_type = "error" → b.ename = "SystemExit" →
      (b.evalue = "" ∨ b.evalue = "0") →
      scanOutputs (b :: rest) hse = scanOutputs rest true) ∧
    (∀ (c₁ c₂ : Cell) (t : String × String × List String),
      (cellScan c₁).1 = none → c₁.papermill_exception ≠ some true →
      (cellScan c₂).1 = some t →
      find_execution_error [c₁, c₂] = some (mkOutputError 1 c₂ t)) ∧
    (∀ (b o : Output) (c : Cell),
      c.outputs = some [b, o] →
      b.output_type = "error" → b.ename = "SystemExit" →
      (b.evalue = "" ∨ b.evalue = "0") →
      o.output_type = "error" →
      ¬(o.ename = "SystemExit" ∧ (o.evalue = "" ∨ o.evalue = "0")) →
      find_execution_error [c] = some (mkOutputError 0 c (o.ename, o.evalue, o.traceback))) := by
  refine ⟨?_, ?_, ?_, ?_⟩
  · intro cells h
    exact findErrorLoop_none 0 cells h
  · intro b rest hse hty hname hval
    simp only [scanOutputs]
    rw [if_pos hty, if_pos ⟨hname, hval⟩]
  · intro c₁ c₂ t h₁ hf h₂
    have := findErrorLoop_last_output_error c₂ [] t h₂ (by intro x hx; cases hx) [c₁] 0 none
      (by intro x hx; rw [List.mem_singleton] at hx; subst hx; exact hf)
    simpa [find_execution_error] using this
  · intro b o c hco hty hname hval hoty hno
    have hscan : (cellScan c).1 = some (o.ename, o.evalue, o.traceback) := by
      simp only [cellScan, hco, scanOutputs]
      rw [if_pos hty, if_pos ⟨hname, hval⟩, if_pos hoty, if_neg hno]
    have := findErrorLoop_last_output_error c [] (o.ename, o.evalue, o.traceback) hscan
      (by intro x hx; cases hx) [] 0 none (by intro x hx; cases hx)
    simpa [find_execution_error] using this

/-- Instantiation of `claim_C3_benign_exit` on concrete documents: a
benign-exit-only document and a benign-exit-plus-flag document classify as
no-failure, the scan passes over the benign output, and a real error in a
later cell or later in the same cell is still reported. -/
theorem claim_C3_witness :
    find_execution_error [benignOnlyCell] = none ∧
    find_execution_error [benignFlaggedCell] = none ∧
    scanOutputs [benignExitOutput, realErrorOutput] false =
      scanOutputs [realErrorOutput] true ∧
    find_execution_error [benignOnlyCell, errorCell5] =
      some (mkOutputError 1 errorCell5 ("ZeroDivisionError", "boom5", ["tb5"])) ∧
    find_execution_error [mixedOutputsCell] =
      some (mkOutputError 0 mixedOutputsCell ("ValueError", "bad", ["tbv"])) :=
  ⟨claim_C3_benign_exit.1 [benignOnlyCell] (by decide),
    claim_C3_benign_exit.1 [benignFlaggedCell] (by decide),
    claim_C3_benign_exit.2.1 benignExitOutput [realErrorOutput] false
      (by decide) (by decide) (by decide),
    claim_C3_benign_exit.2.2.1 benignOnlyCell errorCell5
      ("ZeroDivisionError", "boom5", ["tb5"]) (by decide) (by decide) (by decide),
    claim_C3_benign_exit.2.2.2 benignExitOutput realErrorOutput mixedOutputsCell
      (by decide) (by decide) (by decide) (by decide) (by decide) (by decide)⟩

/-- C9: the classifier never reads the cell kind — retyping every cell
(e.g. to markdown) leaves the classification unchanged — and a cell of any
kind whose `metadata.papermill.exception` flag is true, reached with no
prior failure and no benign exit signal of its own, yields the synthesized
`CellExecutionError` with empty value and empty traceback and stops the
scan (the cells after it are arbitrary). -/
theorem claim_C9_any_cell_kind :
    (∀ (cells : List Cell) (tkind : String),
      find_execution_error (cells.map fun c => { c with cell_type := tkind }) =
        find_execution_error cells) ∧
    (∀ (l₁ : List Cell) (c : Cell) (l₂ : List Cell),
      (∀ c' ∈ l₁, (cellScan c').1 = none ∧ c'.papermill_exception ≠ some true) →
      (cellScan c).1 = none → (cellScan c).2 = false →
      c.papermill_exception = some true →
      find_execution_error (l₁ ++ c :: l₂) = some (mkMetadataError l₁.length c)) := by
  constructor
  · intro cells tkind
    exact findErrorLoop_retype tkind cells 0 none
  · intro l₁ c l₂ h1 h2 h3 h4
    simpa using findErrorLoop_metadata_stop c l₂ h2 h3 h4 l₁ 0 h1

/-- Instantiation of `claim_C9_any_cell_kind`: retyping the failing
document to markdown preserves the classification, and a flagged markdown
cell after a plain cell is reported as `CellExecutionError` even though a
later cell holds a real error output. -/
theorem claim_C9_witness :
    find_execution_error (docErrors25.map fun c => { c with cell_type := "markdown" }) =
      find_execution_error docErrors25 ∧
    find_execution_error ([plainCodeCell] ++ flaggedMarkdownCell :: [errorCell5]) =
      some (mkMetadataError 1 flaggedMarkdownCell) :=
  ⟨claim_C9_any_cell_kind.1 docErrors25 "markdown",
    claim_C9_any_cell_kind.2 [plainCodeCell] flaggedMarkdownCell [errorCell5]
      (by decide) (by decide) (by decide) (by decide)⟩

/-- C5 (counterexample): the name `password` matches the default pattern
set, yet obfuscating the empty-string value returns the empty string, not
the redaction marker — the repository's own tests pin
`obfuscate_parameter("password", "") == ""`. -/
theorem claim_C5_counterexample :
    (SENSITIVE_PARAMETER_PATTERNS.any fun p => p "password") = true ∧
    obfuscate_parameter "password" "" none = "" ∧
    obfuscate_parameter "password" "" none ≠ OBFUSCATED_VALUE := by
  decide

/-- C5 (amended): for every parameter name matching the active pattern set
and every non-empty value, obfuscation returns the fixed redaction marker;
a matching name with an empty-string value returns the empty string
unchanged; for every non-matching name the value is returned unchanged. -/
theorem claim_C5_redaction (name value : String)
    (patterns : Option (List (String → Bool))) :
    (((patterns.getD SENSITIVE_PARAMETER_PATTERNS).any fun p => p name) = true →
      value ≠ "" → obfuscate_parameter name value patterns = OBFUSCATED_VALUE) ∧
    (((patterns.getD SENSITIVE_PARAMETER_PATTERNS).any fun p => p name) = true →
      obfuscate_parameter name "" patterns = "") ∧
    (((patterns.getD SENSITIVE_PARAMETER_PATTERNS).any fun p => p name) = false →
      obfuscate_parameter name value patterns = value) := by
  refine ⟨?_, ?_, ?_⟩
  · intro h hv
    rw [obfuscate_parameter, if_pos ⟨h, hv⟩]
  · intro h
    rw [obfuscate_parameter, if_neg]
    rintro ⟨-, habs⟩
    exact habs rfl
  · intro h
    rw [obfuscate_parameter, if_neg]
    rintro ⟨habs, -⟩
    rw [h] at habs
    cases habs

/-- Instantiation of `claim_C5_redaction`: `token` redacts a non-empty
value, leaves the empty value alone, and `plain_name` is untouched. -/
theorem claim_C5_witness :
    obfuscate_parameter "token" "string_to_be_obfuscated" none = OBFUSCATED_VALUE ∧
    obfuscate_parameter "token" "" none = "" ∧
    obfuscate_parameter "plain_name" "string_to_be_obfuscated" none =
      "string_to_be_obfuscated" :=
  ⟨(claim_C5_redaction "token" "string_to_be_obfuscated" none).1 (by decide) (by decide),
    (claim_C5_redaction "token" "" none).2.1 (by decide),
    (claim_C5_redaction "plain_name" "string_to_be_obfuscated" none).2.2 (by decide)⟩

/-- C8 (counterexample): `key` matches the default pattern set, but with
the empty-string value obfuscation returns the empty string rather than
the redaction marker, so "`key` is redacted to the eight-asterisk marker"
does not hold for every value. -/
theorem claim_C8_counterexample :
    (SENSITIVE_PARAMETER_PATTERNS.any fun p => p "key") = true ∧
    obfuscate_parameter "key" "" none = "" ∧
    obfuscate_parameter "key" "" none ≠ OBFUSCATED_VALUE := by
  decide

/-- C8 (amended): under the default pattern set, `keyword` is never
redacted, while for every non-empty value the names `key`, `sample_token`
and `password_for_test` (whole-word occurrences of `key`/`token`/
`password`) are redacted to the marker. -/
theorem claim_C8_word_boundary (v : String) :
    obfuscate_parameter "keyword" v none = v ∧
    (v ≠ "" →
      obfuscate_parameter "key" v none = OBFUSCATED_VALUE ∧
      obfuscate_parameter "sample_token" v none = OBFUSCATED_VALUE ∧
      obfuscate_parameter "password_for_test" v none = OBFUSCATED_VALUE) := by
  constructor
  · rw [obfuscate_parameter, if_neg]
    rintro ⟨habs, -⟩
    have h : ((none : Option (List (String → Bool))).getD
        SENSITIVE_PARAMETER_PATTERNS).any (fun p => p "keyword") = false := by decide
    rw [h] at habs
    cases habs
  · intro hv
    refine ⟨?_, ?_, ?_⟩ <;> rw [obfuscate_parameter, if_pos ⟨by decide, hv⟩]

/-- Instantiation of `claim_C8_word_boundary` at a concrete value. -/
theorem claim_C8_witness :
    obfuscate_parameter "keyword" "string_not_to_be_obfuscated" none =
      "string_not_to_be_obfuscated" ∧
    obfuscate_parameter "key" "string_to_be_obfuscated" none = OBFUSCATED_VALUE ∧
    obfuscate_parameter "sample_token" "string_to_be_obfuscated" none = OBFUSCATED_VALUE ∧
    obfuscate_parameter "password_for_test" "string_to_be_obfuscated" none =
      OBFUSCATED_VALUE :=
  ⟨(claim_C8_word_boundary "string_not_to_be_obfuscated").1,
    (claim_C8_word_boundary "string_to_be_obfuscated").2 (by decide)⟩

/-- Recognizer for unknown-parameter warning effects. -/
def isWarnEffect : Effect → Bool
  | Effect.warnUnknownParam _ => true
  | _ => false

/-- The parameterization stage emits only inference, warning and
parameterize effects. -/
theorem parameterize_stage_effects (ext : Externals)
    (parameters : Option (List (String × String))) (nb : Notebook) :
    ∀ eff ∈ (parameterize_stage ext parameters nb).1,
      eff = Effect.inferParams ∨ (∃ s, eff = Effect.warnUnknownParam s) ∨
        eff = Effect.parameterize := by
  intro eff heff
  match parameters with
  | none => cases heff
  | some ps =>
    by_cases hps : ps = []
    · rw [parameterize_stage, if_pos hps] at heff
      cases heff
    · rw [parameterize_stage, if_neg hps] at heff
      rcases List.mem_cons.mp heff with h | h
      · exact Or.inl h
      · rcases List.mem_append.mp h with h' | h'
        · obtain ⟨s, -, hs⟩ := List.mem_map.mp h'
          exact Or.inr (Or.inl ⟨s, hs.symm⟩)
        · rw [List.mem_singleton] at h'
          exact Or.inr (Or.inr h')

/-- Equation for `raise_for_execution_errors` when no failure is found. -/
theorem raise_for_execution_errors_of_none (nb : Notebook) (output_path : String)
    (h : find_execution_error nb.cells = none) :
    raise_for_execution_errors nb output_path = ([Effect.classify], Except.ok nb) := by
  simp [raise_for_execution_errors, h]

/-- Equation for `raise_for_execution_errors` when a failure is found. -/
theorem raise_for_execution_errors_of_some (nb : Notebook) (output_path : String)
    (e : PapermillExecutionError) (h : find_execution_error nb.cells = some e) :
    raise_for_execution_errors nb output_path =
      ([Effect.classify, Effect.writeNb (markExecutionError nb e) output_path,
        Effect.raiseError e], Except.error e) := by
  simp [raise_for_execution_errors, h]

/-- The tail of the pipeline emits only kernel-resolution, engine,
classification, persistence and raise effects. -/
theorem execute_after_prepare_effects (ext : Externals) (nb : Notebook)
    (output_path : String) (prepare_only : Bool) :
    ∀ eff ∈ (execute_after_prepare ext nb output_path prepare_only).1,
      eff = Effect.resolveKernelName ∨ eff = Effect.engineExecute ∨
        eff = Effect.classify ∨ (∃ nb' p, eff = Effect.writeNb nb' p) ∨
        (∃ e, eff = Effect.raiseError e) := by
  intro eff heff
  match prepare_only with
  | true =>
    rw [execute_after_prepare, if_pos rfl] at heff
    rw [List.mem_singleton] at heff
    exact Or.inr (Or.inr (Or.inr (Or.inl ⟨nb, output_path, heff⟩)))
  | false =>
    cases hfind : find_execution_error (ext.engine_execute nb).cells with
    | none =>
      rw [execute_after_prepare, if_neg Bool.false_ne_true,
        raise_for_execution_errors_of_none _ _ hfind] at heff
      simp only [List.cons_append, List.nil_append, List.mem_cons,
        List.mem_singleton] at heff
      rcases heff with h | h | h | h
      · exact Or.inl h
      · exact Or.inr (Or.inl h)
      · exact Or.inr (Or.inr (Or.inl h))
      · rcases h with h | h
        · exact Or.inr (Or.inr (Or.inr (Or.inl ⟨ext.engine_execute nb, output_path, h⟩)))
        · cases h
    | some e =>
      rw [execute_after_prepare, if_neg Bool.false_ne_true,
        raise_for_execution_errors_of_some _ _ _ hfind] at heff
      simp only [List.mem_cons] at heff
      rcases heff with h | h | h | h | h
      · exact Or.inl h
      · exact Or.inr (Or.inl h)
      · exact Or.inr (Or.inr (Or.inl h))
      · exact Or.inr (Or.inr (Or.inr (Or.inl
          ⟨markExecutionError (ext.engine_execute nb) e, output_path, h⟩)))
      · rcases h with h | h
        · exact Or.inr (Or.inr (Or.inr (Or.inr ⟨e, h⟩)))
        · cases h

/-- C7: with prepare-only set the orchestration never resolves a kernel
name, never invokes the engine and never classifies for failure, and the
parameterized, metadata-prepared, marker-cleared document is still written
to the output reference and returned. -/
theorem claim_C7_prepare_only_skip (ext : Externals) (nb : Notebook)
    (parameters : Option (List (String × String))) (input_path output_path : String)
    (report_mode : Bool) :
    execute_notebook ext nb parameters input_path output_path true report_mode =
      ((parameterize_stage ext parameters nb).1 ++
        [Effect.writeNb
          (remove_error_markers (prepare_notebook_metadata
            (parameterize_stage ext parameters nb).2 input_path output_path report_mode))
          output_path],
        Except.ok (remove_error_markers (prepare_notebook_metadata
          (parameterize_stage ext parameters nb).2 input_path output_path report_mode))) ∧
    Effect.resolveKernelName ∉
      (execute_notebook ext nb parameters input_path output_path true report_mode).1 ∧
    Effect.engineExecute ∉
      (execute_notebook ext nb parameters input_path output_path true report_mode).1 ∧
    Effect.classify ∉
      (execute_notebook ext nb parameters input_path output_path true report_mode).1 := by
  have htrace : (execute_notebook ext nb parameters input_path output_path true report_mode).1 =
      (parameterize_stage ext parameters nb).1 ++
        [Effect.writeNb
          (remove_error_markers (prepare_notebook_metadata
            (parameterize_stage ext parameters nb).2 input_path output_path report_mode))
          output_path] := rfl
  refine ⟨rfl, ?_, ?_, ?_⟩ <;>
    · rw [htrace]
      intro hmem
      rcases List.mem_append.mp hmem with h | h
      · rcases parameterize_stage_effects ext parameters nb _ h with h' | ⟨s, h'⟩ | h' <;>
          cases h'
      · rw [List.mem_singleton] at h
        cases h

/-- C10: supplying `None` or an empty parameter mapping skips the whole
parameterization stage — the stage emits no effects and passes the loaded
document through unchanged, the run is identical to a run with no
parameters, no inference or parameterize effect appears in the trace, and
no unknown-parameter warning is emitted; metadata preparation, marker
clearing and the rest of the pipeline still run on the loaded document. -/
theorem claim_C10_empty_parameters_skip (ext : Externals) (nb : Notebook)
    (parameters : Option (List (String × String))) (input_path output_path : String)
    (prepare_only report_mode : Bool)
    (h : parameters = none ∨ parameters = some []) :
    parameterize_stage ext parameters nb = ([], nb) ∧
    execute_notebook ext nb parameters input_path output_path prepare_only report_mode =
      execute_notebook ext nb none input_path output_path prepare_only report_mode ∧
    execute_notebook ext nb parameters input_path output_path prepare_only report_mode =
      execute_after_prepare ext
        (remove_error_markers (prepare_notebook_metadata nb input_path output_path report_mode))
        output_path prepare_only ∧
    Effect.inferParams ∉
      (execute_notebook ext nb parameters input_path output_path prepare_only report_mode).1 ∧
    Effect.parameterize ∉
      (execute_notebook ext nb parameters input_path output_path prepare_only report_mode).1 ∧
    (execute_notebook ext nb parameters input_path output_path prepare_only
      report_mode).1.filter isWarnEffect = [] := by
  have hstage : parameterize_stage ext parameters nb = ([], nb) := by
    rcases h with h | h <;> subst h
    · rfl
    · rw [parameterize_stage, if_pos rfl]
  have hrun : execute_notebook ext nb parameters input_path output_path prepare_only
      report_mode =
      execute_after_prepare ext
        (remove_error_markers (prepare_notebook_metadata nb input_path output_path report_mode))
        output_path prepare_only := by
    rw [execute_notebook, hstage]
    simp
  have htail := execute_after_prepare_effects ext
    (remove_error_markers (prepare_notebook_metadata nb input_path output_path report_mode))
    output_path prepare_only
  refine ⟨hstage, ?_, hrun, ?_, ?_, ?_⟩
  · rw [hrun, execute_notebook]
    simp [parameterize_stage]
  · rw [hrun]
    intro hmem
    rcases htail _ hmem with h' | h' | h' | ⟨nb', p, h'⟩ | ⟨e, h'⟩ <;> cases h'
  · rw [hrun]
    intro hmem
    rcases htail _ hmem with h' | h' | h' | ⟨nb', p, h'⟩ | ⟨e, h'⟩ <;> cases h'
  · rw [hrun, List.filter_eq_nil_iff]
    intro eff heff
    rcases htail _ heff with h' | h' | h' | ⟨nb', p, h'⟩ | ⟨e, h'⟩ <;>
      subst h' <;> simp [isWarnEffect]

/-- Example collaborator functions for instantiating the orchestrator. -/
def exampleExternals : Externals :=
  { infer_parameter_names := fun _ => ["a"],
    parameterize_nb := fun nb _ => nb,
    engine_execute := fun nb => nb }

/-- Instantiation of `claim_C10_empty_parameters_skip` with an empty
parameter mapping on a one-cell document. -/
theorem claim_C10_witness :
    parameterize_stage exampleExternals (some []) ⟨[plainCodeCell], none, none⟩ =
      ([], ⟨[plainCodeCell], none, none⟩) ∧
    execute_notebook exampleExternals ⟨[plainCodeCell], none, none⟩ (some [])
        "in.ipynb" "out.ipynb" false false =
      execute_notebook exampleExternals ⟨[plainCodeCell], none, none⟩ none
        "in.ipynb" "out.ipynb" false false ∧
    execute_notebook exampleExternals ⟨[plainCodeCell], none, none⟩ (some [])
        "in.ipynb" "out.ipynb" false false =
      execute_after_prepare exampleExternals
        (remove_error_markers (prepare_notebook_metadata ⟨[plainCodeCell], none, none⟩
          "in.ipynb" "out.ipynb" false))
        "out.ipynb" false ∧
    Effect.inferParams ∉
      (execute_notebook exampleExternals ⟨[plainCodeCell], none, none⟩ (some [])
        "in.ipynb" "out.ipynb" false false).1 ∧
    Effect.parameterize ∉
      (execute_notebook exampleExternals ⟨[plainCodeCell], none, none⟩ (some [])
        "in.ipynb" "out.ipynb" false false).1 ∧
    (execute_notebook exampleExternals ⟨[plainCodeCell], none, none⟩ (some [])
      "in.ipynb" "out.ipynb" false false).1.filter isWarnEffect = [] :=
  claim_C10_empty_parameters_skip exampleExternals ⟨[plainCodeCell], none, none⟩
    (some []) "in.ipynb" "out.ipynb" false false (Or.inr rfl)

end Papermill
